import Mathlib

/-!
Verification of the resilient request layer of the `linear-cli` repository
(ID resolution, retry/backoff, HTTP error classification), as a shallow
embedding of `src/api.rs`, `src/retry.rs`, `src/error.rs` and `src/text.rs`.

Conventions of the embedding:
* `serde_json::Value` becomes the inductive `Json`.
* Rust `u64`/`u32`/`u8` integers become `Nat` (no claim exercises overflow);
  `f64` arithmetic in the backoff computation becomes exact `ℚ` arithmetic,
  with the `as u64` cast modelled as `Rat.floor` followed by `Int.toNat`
  (truncation towards zero with saturation at 0, which agrees with Rust's
  float-to-unsigned cast on every rational value).
* Fallible Rust functions (`Result`) become `Except`.
* The network and the on-disk cache are modelled as explicit environment
  values (the outcome each external call would produce), and the functions
  additionally return a trace of the external calls they perform.
-/

namespace LinearCli

/-! ### JSON values (`serde_json::Value`) -/

/-- Model of `serde_json::Value`.  Numbers are modelled as `Int`; no claim
in this development depends on non-integral JSON numbers. -/
inductive Json where
  | null
  | bool (b : Bool)
  | num (n : Int)
  | str (s : String)
  | arr (elems : List Json)
  | obj (fields : List (String × Json))

/-- `Value::get(key)` on an object: first field with that key, `None` on
non-objects or a missing key. -/
def Json.getKey : Json → String → Option Json
  | .obj fields, k => (fields.find? (fun p => p.1 == k)).map (fun p => p.2)
  | _, _ => none

/-- Rust's `value["key"]` indexing, which yields `Value::Null` when the key
is absent or the value is not an object. -/
def Json.idx (j : Json) (k : String) : Json :=
  (j.getKey k).getD .null

/-- `Value::as_str`. -/
def Json.asStr : Json → Option String
  | .str s => some s
  | _ => none

/-- `Value::as_array` (the `cloned` copy is irrelevant in a pure model). -/
def Json.asArr : Json → Option (List Json)
  | .arr xs => some xs
  | _ => none

/-- `Value::as_bool`. -/
def Json.asBool : Json → Option Bool
  | .bool b => some b
  | _ => none

/-! ### String helpers (`src/text.rs` and `str` methods used by the core) -/

/-- ASCII lower-casing of one character, as used by Rust's
`eq_ignore_ascii_case` / `to_lowercase` on the ASCII fragment (every string
the classifier inspects in this code base is ASCII). -/
def asciiLower (c : Char) : Char :=
  if 'A' ≤ c ∧ c ≤ 'Z' then Char.ofNat (c.toNat + 32) else c

/-- Rust `str::eq_ignore_ascii_case`. -/
def eqIgnoreAsciiCase (a b : String) : Bool :=
  a.data.map asciiLower == b.data.map asciiLower

/-- Rust `str::to_lowercase` restricted to the ASCII fragment exercised by
the code (all classifier messages are ASCII). -/
def toLowerAscii (s : String) : String :=
  String.mk (s.data.map asciiLower)

/-- `needle` occurs at the start of `hay`. -/
def leadsWith : List Char → List Char → Bool
  | [], _ => true
  | _ :: _, [] => false
  | a :: as, b :: bs => a == b && leadsWith as bs

/-- Rust `str::contains` with a string pattern: `needle` occurs as a
contiguous substring of `hay` (the empty needle always matches). -/
def containsSub (hay needle : List Char) : Bool :=
  if leadsWith needle hay then true
  else
    match hay with
    | [] => false
    | _ :: t => containsSub t needle

/-- `s.contains(pat)` for strings. -/
def strContains (s pat : String) : Bool :=
  containsSub s.data pat.data

/-- UTF-8 byte size of one character (Rust `str::len` counts bytes). -/
def charSize (c : Char) : Nat :=
  if c.toNat < 0x80 then 1
  else if c.toNat < 0x800 then 2
  else if c.toNat < 0x10000 then 3
  else 4

/-- Rust `str::len`: the UTF-8 byte length. -/
def strBytes (s : String) : Nat :=
  (s.data.map charSize).sum

/-- `src/text.rs::is_uuid`:
`value.len() == 36 && value.matches("-").count() == 4`.
`len()` is the byte length and `matches("-").count()` counts the
occurrences of the hyphen character. -/
def is_uuid (value : String) : Bool :=
  strBytes value == 36 && value.data.count '-' == 4

/-- Splitting at the first hyphen, as `value.splitn(2, '-')` does:
the part before the first hyphen, and the remainder after it (if any). -/
def splitFirstDash : List Char → List Char × Option (List Char)
  | [] => ([], none)
  | c :: rest =>
    if c = '-' then ([], some rest)
    else
      let r := splitFirstDash rest
      (c :: r.1, r.2)

/-- `src/api.rs::is_issue_identifier`: `PREFIX-NUMBER` with a non-empty
ASCII alphanumeric-or-underscore prefix and a non-empty all-digit number
part (the number part is everything after the first hyphen). -/
def is_issue_identifier (value : String) : Bool :=
  let parts := splitFirstDash value.data
  let prefixPart := parts.1
  let numberPart := parts.2.getD []
  if prefixPart.isEmpty || numberPart.isEmpty then false
  else
    prefixPart.all (fun c => c.isAlphanum || c == '_') &&
      numberPart.all Char.isDigit

/-! ### `src/error.rs::CliError` -/

/-- `CliError { code: u8, message, details, retry_after }`. -/
structure CliError where
  code : Nat
  message : String
  details : Option Json
  retry_after : Option Nat

/-- `CliError::new`. -/
def CliError.new (code : Nat) (message : String) : CliError :=
  { code := code, message := message, details := none, retry_after := none }

/-- `CliError::with_details`. -/
def CliError.with_details (e : CliError) (details : Json) : CliError :=
  { e with details := some details }

/-- `CliError::with_retry_after`. -/
def CliError.with_retry_after (e : CliError) (retry_after : Option Nat) : CliError :=
  { e with retry_after := retry_after }

/-! ### `src/api.rs::http_error` -/

/-- Lookup of a header value; the code only queries the lower-case header
names `retry-after` and `x-request-id`. -/
def headerGet (headers : List (String × String)) (name : String) : Option String :=
  (headers.find? (fun p => p.1 == name)).map (fun p => p.2)

/-- The `http` crate's canonical reason phrases, restricted to the status
codes this development evaluates concretely. -/
def canonicalReason : Nat → Option String
  | 200 => some "OK"
  | 400 => some "Bad Request"
  | 401 => some "Unauthorized"
  | 403 => some "Forbidden"
  | 404 => some "Not Found"
  | 429 => some "Too Many Requests"
  | 500 => some "Internal Server Error"
  | 502 => some "Bad Gateway"
  | 503 => some "Service Unavailable"
  | 504 => some "Gateway Timeout"
  | _ => none

/-- Option-to-Json embedding used when building the `details` object
(`serde_json::json!` maps `None` to `null`). -/
def jsonOfOptStr : Option String → Json
  | some s => .str s
  | none => .null

/-- `src/api.rs::http_error`: build a `CliError` from an HTTP status and
headers.  `u64::parse` of the `retry-after` value is modelled with
`String.toNat?` (both accept exactly the decimal digit strings relevant
here). -/
def http_error (status : Nat) (headers : List (String × String)) (context : String) : CliError :=
  let retry_after := (headerGet headers "retry-after").bind String.toNat?
  let request_id := headerGet headers "x-request-id"
  let reason := (canonicalReason status).getD "Unknown error"
  let details : Json := .obj
    [("status", .num status), ("reason", .str reason),
     ("request_id", jsonOfOptStr request_id)]
  let err :=
    match status with
    | 401 => CliError.new 3 "Authentication failed - check your API key"
    | 403 => CliError.new 3 ("Access denied - " ++ context)
    | 404 => CliError.new 2 (context ++ " not found")
    | 429 => (CliError.new 4 "Rate limit exceeded").with_retry_after retry_after
    | _ =>
      CliError.new 1
        ("HTTP " ++ toString status ++ " "
          ++ ((details.idx "reason").asStr.getD "Unknown error"))
  err.with_details details

/-! ### `src/retry.rs` — classifier -/

/-- `impl IsRetryable for CliError`: code 4 (rate limited) or a transient
marker in the lower-cased message. -/
def CliError.is_retryable (e : CliError) : Bool :=
  let msg := toLowerAscii e.message
  e.code == 4
    || strContains msg "rate limit"
    || strContains msg "timeout"
    || strContains msg "temporarily unavailable"
    || strContains msg "503"
    || strContains msg "502"
    || strContains msg "504"

/-! ### `src/retry.rs` — backoff policy -/

/-- `RetryConfig`.  `exponential_base: f64` is modelled as `ℚ`; for the
power-of-two bases the code uses, `f64` arithmetic is exact and agrees
with the rational model. -/
structure RetryConfig where
  max_retries : Nat
  initial_delay_ms : Nat
  max_delay_ms : Nat
  exponential_base : ℚ

/-- `RetryConfig::default()`. -/
def RetryConfig.default : RetryConfig :=
  { max_retries := 3, initial_delay_ms := 1000, max_delay_ms := 30000,
    exponential_base := 2 }

/-- `RetryConfig::new(max_retries)`. -/
def RetryConfig.mkNew (max_retries : Nat) : RetryConfig :=
  { RetryConfig.default with max_retries := max_retries }

/-- `RetryConfig::no_retry()`. -/
def RetryConfig.no_retry : RetryConfig :=
  { RetryConfig.default with max_retries := 0 }

/-- The exponential-backoff value before jitter, in milliseconds:
`(initial_delay_ms as f64 * base.powi(attempt)).min(max_delay_ms as f64) as u64`.
Floor followed by `Int.toNat` reproduces the cast (truncation with
saturation at zero, which agrees with the floor on the nonnegative values
and clamps negatives to 0 exactly as `as u64` does). -/
def delayMsFor (c : RetryConfig) (attempt : Nat) : Nat :=
  (⌊min ((c.initial_delay_ms : ℚ) * c.exponential_base ^ attempt)
      ((c.max_delay_ms : ℚ))⌋).toNat

/-- `RetryConfig::delay_for_attempt`, in milliseconds.  The server hint is
in seconds (`Duration::from_secs`), hence the `* 1000`.  The value drawn by
`rand::thread_rng().gen_range(0..=jitter_range * 2)` is passed in as
`jitterDraw` (a fixed jitter seed fixes this value); in-range draws satisfy
`jitterDraw ≤ 2 * jitter_range`. -/
def delay_for_attempt (c : RetryConfig) (attempt : Nat) (retry_after : Option Nat)
    (jitterDraw : Nat) : Nat :=
  match retry_after with
  | some seconds => seconds * 1000
  | none =>
    let delay_ms := delayMsFor c attempt
    let jitter_range := delay_ms / 4
    let jitter : Int :=
      if jitter_range > 0 then (jitterDraw : Int) - (jitter_range : Int) else 0
    (max ((delay_ms : Int) + jitter) 0).toNat

/-! ### `src/retry.rs::with_retry`

The Rust loop is `for attempt in 0..=config.max_retries`, falling through
to `last_error.expect(..)` if no iteration returns.  The embedding makes
the iteration count structural: `remaining` is the number of loop indices
still to run (initially `max_retries + 1`), so `attempt + remaining =
max_retries + 1` throughout, and the `expect` line is reached exactly when
`remaining` hits 0 without an earlier return.  The sleep between attempts
does not affect the returned value and is dropped.  The second component
counts invocations of the operation `f` (whose outcome may depend on the
invocation index, which subsumes any `FnMut` state). -/

/-- What a run of `with_retry` produces: a normal return out of the loop
body, or control falling through to the trailing
`last_error.expect("Should have an error after retries")` line (with the
`last_error` it would inspect there). -/
inductive RetryOutcome (T E : Type) where
  | ok (t : T)
  | err (e : E)
  | fellThrough (last : Option E)

/-- `true` iff the run returned from inside the loop (never reached the
trailing `expect`). -/
def RetryOutcome.returnedInLoop : RetryOutcome T E → Bool
  | .ok _ => true
  | .err _ => true
  | .fellThrough _ => false

/-- The loop body of `with_retry`, with an explicit remaining-iteration
count.  Returns the outcome and the number of times `f` was invoked. -/
def withRetryGo (retryable : E → Bool) (f : Nat → Except E T) (maxRetries : Nat) :
    Nat → Option E → Nat → RetryOutcome T E × Nat
  | _, lastError, 0 => (.fellThrough lastError, 0)
  | attempt, _, remaining + 1 =>
    match f attempt with
    | .ok result => (.ok result, 1)
    | .error e =>
      if attempt < maxRetries && retryable e then
        let r := withRetryGo retryable f maxRetries (attempt + 1) (some e) remaining
        (r.1, r.2 + 1)
      else
        (.err e, 1)

/-- `with_retry(config, f)`: run the loop from attempt 0 with no recorded
last error and `max_retries + 1` iterations available. -/
def with_retry (config : RetryConfig) (retryable : E → Bool)
    (f : Nat → Except E T) : RetryOutcome T E × Nat :=
  withRetryGo retryable f config.max_retries 0 none (config.max_retries + 1)

/-! ### `src/api.rs::LinearClient::query_once` (the Transport) -/

/-- The body of an HTTP response, as seen after the decode attempt:
either it decodes as JSON or it is raw text that does not. -/
inductive RespBody where
  | text (s : String)
  | json (j : Json)

/-- One HTTP response from the service. -/
structure HttpResponse where
  status : Nat
  headers : List (String × String)
  body : RespBody

/-- An error escaping `query_once`: a `CliError` (converted into the
`anyhow::Error`), or the `reqwest` JSON-decode error raised by
`response.json()` on a 2xx response whose body is not valid JSON. -/
inductive QueryError where
  | cli (e : CliError)
  | decode

/-- `impl IsRetryable for anyhow::Error` applied to the errors
`query_once` can produce: a wrapped `CliError` downcasts and uses its own
classifier; the `reqwest` decode error's message ("error decoding response
body") contains none of the transient markers. -/
def QueryError.is_retryable : QueryError → Bool
  | .cli e => e.is_retryable
  | .decode => false

/-- `query_once` after the HTTP exchange: status is checked before the
body is decoded; a non-2xx status becomes `http_error` (with the parsed
body, or `{"body": text}`, attached as details when the body is
non-empty); on 2xx, a top-level `"errors"` member makes the call fail with
`CliError::new(1, "GraphQL error")` carrying the member as details. -/
def query_once (resp : HttpResponse) : Except QueryError Json :=
  if !(200 ≤ resp.status && resp.status < 300) then
    let bodyEmpty := match resp.body with
      | .text s => s.isEmpty
      | .json _ => false
    let details := match resp.body with
      | .json j => j
      | .text s => .obj [("body", .str s)]
    let err := http_error resp.status resp.headers "resource"
    let err := if !bodyEmpty then err.with_details details else err
    .error (.cli err)
  else
    match resp.body with
    | .text _ => .error .decode
    | .json result =>
      match result.getKey "errors" with
      | some errors =>
        .error (.cli ((CliError.new 1 "GraphQL error").with_details errors))
      | none => .ok result

/-! ### `src/api.rs` — generic ID resolution -/

/-- `src/api.rs::get_nested_array`. -/
def get_nested_array (value : Json) : List String → Option (List Json)
  | [] => value.asArr
  | key :: rest =>
    match value.getKey key with
    | some v => get_nested_array v rest
    | none => none

/-- `src/api.rs::find_team_id`: first a scan for a case-insensitive key
match, then (when that yields no id string) a scan for a name match. -/
def find_team_id (teams : List Json) (team : String) : Option String :=
  let byName :=
    match teams.find?
        (fun t => (t.idx "name").asStr.map (fun n => eqIgnoreAsciiCase n team) == some true) with
    | some teamData => (teamData.idx "id").asStr
    | none => none
  match teams.find?
      (fun t => (t.idx "key").asStr.map (fun k => eqIgnoreAsciiCase k team) == some true) with
  | some teamData =>
    match (teamData.idx "id").asStr with
    | some id => some id
    | none => byName
  | none => byName

/-- `src/api.rs::find_user_id`: first user whose name or email matches
case-insensitively and which carries a string id (a matching user without
one is skipped, as in the Rust loop). -/
def find_user_id (users : List Json) (user : String) : Option String :=
  users.findSome? (fun u =>
    let name := (u.idx "name").asStr.getD ""
    let email := (u.idx "email").asStr.getD ""
    if eqIgnoreAsciiCase name user || eqIgnoreAsciiCase email user then
      (u.idx "id").asStr
    else none)

/-- `src/api.rs::find_label_id`. -/
def find_label_id (labels : List Json) (label : String) : Option String :=
  labels.findSome? (fun l =>
    let name := (l.idx "name").asStr.getD ""
    if eqIgnoreAsciiCase name label then (l.idx "id").asStr else none)

/-- Trace of the external calls a resolution performs:
`net` counts GraphQL requests, `cacheReads` counts `Cache::get` calls, and
`writes` lists the collections passed to `Cache::set`, in order. -/
structure Trace where
  net : Nat
  cacheReads : Nat
  writes : List (List Json)

/-- The trace of a call that touched nothing. -/
def Trace.zero : Trace := { net := 0, cacheReads := 0, writes := [] }

/-- The environment a `resolve_id` call runs against: what `Cache::get`
returns for the bucket, the outcome of the filtered query, the outcome of
`paginate_nodes` (the flattened full collection), and how many page
requests that pagination issued. -/
structure ResolveEnv where
  cached : Option Json
  filtered : Except String Json
  paginated : Except String (List Json)
  pageFetches : Nat

/-- `src/api.rs::resolve_id`: cache probe, then the server-side filtered
query, then the full paginated fetch whose result — and only whose
result — is written to the cache (when caching is enabled). -/
def resolve_id (env : ResolveEnv) (no_cache : Bool) (filtered_nodes_path : List String)
    (finder : List Json → String → Option String) (input not_found_msg : String) :
    Except String String × Trace :=
  let cacheHit : Option String :=
    if no_cache then none
    else
      match env.cached.bind Json.asArr with
      | some cachedArr => finder cachedArr input
      | none => none
  let reads := if no_cache then 0 else 1
  match cacheHit with
  | some id => (.ok id, { net := 0, cacheReads := reads, writes := [] })
  | none =>
    match env.filtered with
    | .error e => (.error e, { net := 1, cacheReads := reads, writes := [] })
    | .ok result =>
      let nodes := (get_nested_array result filtered_nodes_path).getD []
      match finder nodes input with
      | some id => (.ok id, { net := 1, cacheReads := reads, writes := [] })
      | none =>
        match env.paginated with
        | .error e =>
          (.error e, { net := 1 + env.pageFetches, cacheReads := reads, writes := [] })
        | .ok all_items =>
          let writes := if no_cache then [] else [all_items]
          match finder all_items input with
          | some id =>
            (.ok id, { net := 1 + env.pageFetches, cacheReads := reads, writes := writes })
          | none =>
            (.error not_found_msg,
              { net := 1 + env.pageFetches, cacheReads := reads, writes := writes })

/-- Modelled from the spec: the repository's cache module
(`src/cache.rs`, not present under `src/`) — per §4.6 of the spec, `set`
overwrites the bucket with the given collection, so the bucket contents
after a sequence of writes is the last collection written (or the initial
contents when no write happened). -/
def cacheAfterWrites (initial : Option Json) (writes : List (List Json)) : Option Json :=
  writes.foldl (fun _ w => some (Json.arr w)) initial

/-- `src/api.rs::resolve_team_id`. -/
def resolve_team_id (env : ResolveEnv) (no_cache : Bool) (team : String) :
    Except String String × Trace :=
  if is_uuid team then (.ok team, Trace.zero)
  else
    resolve_id env no_cache ["data", "teams", "nodes"] find_team_id team
      ("Team not found: " ++ team ++ ". Use linear-cli t list to see available teams.")

/-- `src/api.rs::resolve_user_id`.  `viewer` is the outcome the dedicated
`query { viewer { id } }` call would produce (used only for the literal
"me"). -/
def resolve_user_id (viewer : Except String Json) (env : ResolveEnv) (no_cache : Bool)
    (user : String) : Except String String × Trace :=
  if eqIgnoreAsciiCase user "me" then
    match viewer with
    | .error e => (.error e, { net := 1, cacheReads := 0, writes := [] })
    | .ok result =>
      match (((result.idx "data").idx "viewer").idx "id").asStr with
      | some user_id => (.ok user_id, { net := 1, cacheReads := 0, writes := [] })
      | none =>
        (.error "Could not fetch current user ID",
          { net := 1, cacheReads := 0, writes := [] })
  else if is_uuid user then (.ok user, Trace.zero)
  else
    resolve_id env no_cache ["data", "users", "nodes"] find_user_id user
      ("User not found: " ++ user)

/-- `src/api.rs::resolve_label_id`. -/
def resolve_label_id (env : ResolveEnv) (no_cache : Bool) (label : String) :
    Except String String × Trace :=
  if is_uuid label then (.ok label, Trace.zero)
  else
    resolve_id env no_cache ["data", "issueLabels", "nodes"] find_label_id label
      ("Label not found: " ++ label)

/-! ### `src/api.rs::resolve_issue_id`

The issue resolver walks `searchIssues` pages itself.  The server is
modelled as a function from the varying query variables — the
`includeArchived` flag and the `after` cursor (`term` and `first` are
fixed for the whole call) — to the outcome `client.query` would produce.
The inner `loop` has no structural bound in the Rust source; the embedding
gives it explicit fuel and returns `none` when the fuel is exhausted, so
"the loop terminates" becomes "some fuel suffices".  The `Nat` component
counts server requests. -/

/-- The scan over one page's nodes: first node whose `identifier` matches
the requested issue case-insensitively and which carries a string `id`. -/
def issueFind (nodes : List Json) (issue : String) : Option String :=
  nodes.findSome? (fun node =>
    let identifier := (node.idx "identifier").asStr.getD ""
    if eqIgnoreAsciiCase identifier issue then (node.idx "id").asStr else none)

/-- The inner cursor loop of `resolve_issue_id`, for one value of the
`includeArchived` flag.  Result `some (.ok (some id))` is a hit,
`some (.ok none)` is loop exit without a hit (no next page, or a null
cursor), `some (.error e)` a failed request, `none` exhausted fuel. -/
def issueLoop (respond : Bool → Option String → Except String Json) (issue : String)
    (includeArchived : Bool) : Nat → Option String → Option (Except String (Option String)) × Nat
  | 0, _ => (none, 0)
  | fuel + 1, after =>
    match respond includeArchived after with
    | .error e => (some (.error e), 1)
    | .ok result =>
      let nodes := (((result.idx "data").idx "searchIssues").idx "nodes").asArr.getD []
      match issueFind nodes issue with
      | some id => (some (.ok (some id)), 1)
      | none =>
        let page_info := ((result.idx "data").idx "searchIssues").idx "pageInfo"
        if !((page_info.idx "hasNextPage").asBool.getD false) then
          (some (.ok none), 1)
        else
          match (page_info.idx "endCursor").asStr with
          | none => (some (.ok none), 1)
          | some c =>
            let r := issueLoop respond issue includeArchived fuel (some c)
            (r.1, r.2 + 1)

/-- `src/api.rs::resolve_issue_id`: UUID short-circuit, identifier-shape
validation, then up to two passes of the cursor walk (the second pass
repeats it with `includeArchived = true` when the first pass, run with
`false`, found nothing). -/
def resolve_issue_id (respond : Bool → Option String → Except String Json)
    (issue : String) (include_archived : Bool) (fuel : Nat) :
    Option (Except String String) × Nat :=
  if is_uuid issue then (some (.ok issue), 0)
  else if !(is_issue_identifier issue) then
    (some (.error ("Invalid issue identifier '" ++ issue
        ++ "'. Use an identifier like ENG-123 or a UUID.")), 0)
  else
    match issueLoop respond issue include_archived fuel none with
    | (none, n) => (none, n)
    | (some (.error e), n) => (some (.error e), n)
    | (some (.ok (some id)), n) => (some (.ok id), n)
    | (some (.ok none), n) =>
      if include_archived then
        (some (.error ("Issue not found: " ++ issue)), n)
      else
        match issueLoop respond issue true fuel none with
        | (none, m) => (none, n + m)
        | (some (.error e), m) => (some (.error e), n + m)
        | (some (.ok (some id)), m) => (some (.ok id), n + m)
        | (some (.ok none), m) =>
          (some (.error ("Issue not found: " ++ issue)), n + m)

/-- The cursor with which one more iteration of the inner loop would run,
if the loop continues after this response (has-next true and a string
cursor, and — relevant only when the issue is found on the page — the scan
misses; a hit only makes the loop stop sooner). -/
def nextCursor (r : Except String Json) : Option String :=
  match r with
  | .error _ => none
  | .ok result =>
    let page_info := ((result.idx "data").idx "searchIssues").idx "pageInfo"
    if (page_info.idx "hasNextPage").asBool.getD false then
      (page_info.idx "endCursor").asStr
    else none

/-! ### Concrete sample data used by the closed witness/counterexample
theorems below -/

/-- One team record as the service returns it. -/
def sampleTeam : Json :=
  .obj [("id", .str "11111111-1111-1111-1111-111111111111"),
    ("key", .str "ENG"), ("name", .str "Engineering")]

/-- A filtered-query response whose `nodes` list is empty (no match). -/
def emptyTeamsBody : Json :=
  .obj [("data", .obj [("teams", .obj [("nodes", .arr [])])])]

/-- An environment with an empty cache, a missing filtered query and a
one-team full fetch that needed a single page request. -/
def sampleResolveEnv : ResolveEnv :=
  { cached := none, filtered := .ok emptyTeamsBody,
    paginated := .ok [sampleTeam], pageFetches := 1 }

/-- A GraphQL `errors` collection. -/
def graphqlErrs : Json := .arr [.obj [("message", .str "Entity not found")]]

/-- An HTTP 200 response whose decoded body carries a top-level `errors`
member. -/
def graphqlErrorResponse : HttpResponse :=
  { status := 200, headers := [],
    body := .json (.obj [("data", .null), ("errors", graphqlErrs)]) }

/-- A config on which the backoff clamp is active from attempt 0 on and
whose delays are too small for any jitter (`jitter_range = 0`), so the
delay sequence is independent of the jitter seed. -/
def c5Config : RetryConfig :=
  { max_retries := 3, initial_delay_ms := 2, max_delay_ms := 2,
    exponential_base := 2 }

/-- A `searchIssues` page with no matching node that reports another page
behind the same cursor `"c1"` on every request. -/
def stubbornPage : Json :=
  .obj [("data", .obj [("searchIssues", .obj
    [("nodes", .arr []),
     ("pageInfo", .obj [("hasNextPage", .bool true), ("endCursor", .str "c1")])])])]

/-- A server that answers every `searchIssues` request, for every cursor,
with `stubbornPage`: the has-next flag stays `true` and the returned
cursor always equals the cursor of the previous page. -/
def stubbornRespond : Bool → Option String → Except String Json :=
  fun _ _ => .ok stubbornPage

/-- The cursor walk of `resolve_issue_id` against `stubbornRespond` never
produces a result, however much fuel it is given. -/
def stubbornWalkDiverges : Prop :=
  ∀ fuel : Nat, (resolve_issue_id stubbornRespond "ENG-1" true fuel).1 = none

/-- A page with no matching node and no next page. -/
def donePage : Json :=
  .obj [("data", .obj [("searchIssues", .obj
    [("nodes", .arr []),
     ("pageInfo", .obj [("hasNextPage", .bool false)])])])]

/-- A server whose every response is the terminal `donePage`. -/
def doneRespond : Bool → Option String → Except String Json :=
  fun _ _ => .ok donePage

/-! ## Helper lemmas -/

/-- Running the retry loop with `attempt + remaining = max_retries + 1`
and `attempt ≤ max_retries` — the configuration every reachable recursive
call satisfies — always returns from inside the loop. -/
theorem withRetryGo_returnedInLoop (retryable : E → Bool) (f : Nat → Except E T)
    (m : Nat) :
    ∀ (remaining attempt : Nat) (lastError : Option E),
      attempt + remaining = m + 1 → attempt ≤ m →
      (withRetryGo retryable f m attempt lastError remaining).1.returnedInLoop = true := by
  intro remaining
  induction remaining with
  | zero => intro attempt lastError h hle; omega
  | succ k ih =>
    intro attempt lastError h hle
    simp only [withRetryGo]
    cases hf : f attempt with
    | ok r => simp [RetryOutcome.returnedInLoop]
    | error e =>
      by_cases hcond : (decide (attempt < m) && retryable e) = true
      · simp only [hcond, if_true]
        have hlt : attempt < m := by
          have := (Bool.and_eq_true _ _).mp hcond
          exact of_decide_eq_true this.1
        exact ih (attempt + 1) (some e) (by omega) (by omega)
      · simp [hcond, RetryOutcome.returnedInLoop]

/-- When the operation fails on every attempt and every error it produces
is retryable, the loop consumes all its iterations and ends by returning
the error of the final attempt from the non-retry branch. -/
theorem withRetryGo_allFail (T : Type) (retryable : E → Bool) (errs : Nat → E) (m : Nat)
    (h : ∀ n, retryable (errs n) = true) :
    ∀ (remaining attempt : Nat) (lastError : Option E),
      attempt + remaining = m + 1 → attempt ≤ m →
      withRetryGo (T := T) retryable (fun n => Except.error (errs n)) m attempt lastError
          remaining
        = (.err (errs m), remaining) := by
  intro remaining
  induction remaining with
  | zero => intro attempt lastError hsum hle; omega
  | succ k ih =>
    intro attempt lastError hsum hle
    simp only [withRetryGo]
    by_cases hlt : attempt < m
    · rw [if_pos (by simp [hlt, h attempt])]
      rw [ih (attempt + 1) (some (errs attempt)) (by omega) (by omega)]
    · have hm : attempt = m := by omega
      have hk : k = 0 := by omega
      subst hm
      subst hk
      simp [hlt]

/-- A first attempt failing with a non-retryable error makes `with_retry`
return that error after exactly one invocation, whatever the config. -/
theorem with_retry_fatal (config : RetryConfig) (retryable : E → Bool)
    (f : Nat → Except E T) (e : E) (h0 : f 0 = .error e) (hr : retryable e = false) :
    with_retry config retryable f = (.err e, 1) := by
  unfold with_retry
  simp only [withRetryGo, h0, hr, Bool.and_false, Bool.false_eq_true, if_false]

/-! ## Claim theorems -/

/-- C2: for every `RetryConfig` with `max_retries = N` and every operation
that fails on every invocation with a retryable error, `with_retry`
invokes the operation exactly `N + 1` times (1 initial attempt plus `N`
retries) and returns the error observed on the last invocation itself,
not a synthesized one. -/
theorem c2_retry_exhaustion (T : Type) (config : RetryConfig) (retryable : E → Bool)
    (errs : Nat → E) (h : ∀ n, retryable (errs n) = true) :
    with_retry (T := T) config retryable (fun n => Except.error (errs n))
      = (.err (errs config.max_retries), config.max_retries + 1) := by
  unfold with_retry
  exact withRetryGo_allFail T retryable errs config.max_retries h
    (config.max_retries + 1) 0 none (by omega) (by omega)

/-- C2 witness: `max_retries = 2` and a transport that always produces the
503 error built by `http_error`: 3 invocations, and the result is that
503 error. -/
theorem c2_retry_exhaustion_witness :
    with_retry (T := Unit) (RetryConfig.mkNew 2) QueryError.is_retryable
      (fun _ => Except.error (.cli (http_error 503 [] "resource")))
      = (.err (.cli (http_error 503 [] "resource")), 3) :=
  c2_retry_exhaustion Unit (RetryConfig.mkNew 2) QueryError.is_retryable
    (fun _ => .cli (http_error 503 [] "resource"))
    (fun n => (by decide : QueryError.is_retryable (.cli (http_error 503 [] "resource")) = true))

/-- C3: every error the transport builds from HTTP status 401, 403 or 404
is classified non-retryable, and every error built from 429, 502, 503 or
504 is classified retryable — for any response headers and for the two
context strings (`"resource"`, `"upload"`) the transport passes. -/
theorem c3_classifier (headers : List (String × String)) (context : String)
    (hctx : context = "resource" ∨ context = "upload") :
    ((http_error 401 headers context).is_retryable = false
      ∧ (http_error 403 headers context).is_retryable = false
      ∧ (http_error 404 headers context).is_retryable = false)
    ∧ ((http_error 429 headers context).is_retryable = true
      ∧ (http_error 502 headers context).is_retryable = true
      ∧ (http_error 503 headers context).is_retryable = true
      ∧ (http_error 504 headers context).is_retryable = true) := by
  rcases hctx with h | h <;> subst h <;>
    exact ⟨⟨rfl, rfl, rfl⟩, rfl, rfl, rfl, rfl⟩

/-- C3 witness: the classifier outcomes at empty headers and the
`"resource"` context. -/
theorem c3_classifier_witness :
    ((http_error 401 [] "resource").is_retryable = false
      ∧ (http_error 403 [] "resource").is_retryable = false
      ∧ (http_error 404 [] "resource").is_retryable = false)
    ∧ ((http_error 429 [] "resource").is_retryable = true
      ∧ (http_error 502 [] "resource").is_retryable = true
      ∧ (http_error 503 [] "resource").is_retryable = true
      ∧ (http_error 504 [] "resource").is_retryable = true) :=
  c3_classifier [] "resource" (Or.inl rfl)

/-- C4: a server-supplied retry hint is returned verbatim (`d` seconds,
i.e. `d * 1000` of the model's milliseconds), for every attempt index,
every config and every jitter draw — the exponential computation, the
clamp and the jitter are all ignored. -/
theorem c4_server_hint_precedence (c : RetryConfig) (n d draw : Nat) :
    delay_for_attempt c n (some d) draw = d * 1000 := rfl

/-- C10: `with_retry` always returns from inside its attempt loop, so
control never falls through to the trailing
`last_error.expect("Should have an error after retries")` line: that
branch of the loop is unreachable and `with_retry` never panics there. -/
theorem c10_expect_unreachable (T E : Type) (config : RetryConfig)
    (retryable : E → Bool) (f : Nat → Except E T) :
    (with_retry config retryable f).1.returnedInLoop = true :=
  withRetryGo_returnedInLoop retryable f config.max_retries
    (config.max_retries + 1) 0 none (by omega) (by omega)

/-- C6: a 2xx response whose decoded body carries a top-level `errors`
member makes `query_once` fail with the `GraphQL error` failure carrying
that member as machine-readable details; that failure is classified
non-retryable, so the retry loop returns it after the single attempt,
for every retry config. -/
theorem c6_graphql_errors_fatal (resp : HttpResponse) (j errs : Json)
    (config : RetryConfig) (h200 : 200 ≤ resp.status) (h300 : resp.status < 300)
    (hbody : resp.body = .json j) (herrs : j.getKey "errors" = some errs) :
    query_once resp
      = .error (.cli ((CliError.new 1 "GraphQL error").with_details errs))
    ∧ QueryError.is_retryable
        (.cli ((CliError.new 1 "GraphQL error").with_details errs)) = false
    ∧ with_retry config QueryError.is_retryable (fun _ => query_once resp)
        = (.err (.cli ((CliError.new 1 "GraphQL error").with_details errs)), 1) := by
  have hq : query_once resp
      = .error (.cli ((CliError.new 1 "GraphQL error").with_details errs)) := by
    simp [query_once, hbody, herrs, h200, h300]
  have hr : QueryError.is_retryable
      (.cli ((CliError.new 1 "GraphQL error").with_details errs)) = false := rfl
  exact ⟨hq, hr, with_retry_fatal config QueryError.is_retryable _ _ hq hr⟩

/-- C6 witness: a concrete 200-status response with an `errors` member,
run under the default retry config. -/
theorem c6_graphql_errors_fatal_witness :
    query_once graphqlErrorResponse
      = .error (.cli ((CliError.new 1 "GraphQL error").with_details graphqlErrs))
    ∧ QueryError.is_retryable
        (.cli ((CliError.new 1 "GraphQL error").with_details graphqlErrs)) = false
    ∧ with_retry RetryConfig.default QueryError.is_retryable
        (fun _ => query_once graphqlErrorResponse)
        = (.err (.cli ((CliError.new 1 "GraphQL error").with_details graphqlErrs)), 1) :=
  c6_graphql_errors_fatal graphqlErrorResponse
    (.obj [("data", .null), ("errors", graphqlErrs)]) graphqlErrs
    RetryConfig.default (by decide) (by decide) rfl rfl

/-- A character occupies at most 4 UTF-8 bytes. -/
theorem charSize_le_four (c : Char) : charSize c ≤ 4 := by
  unfold charSize
  split_ifs <;> omega

/-- The byte length of a string is at most 4 bytes per character. -/
theorem strBytes_le (s : String) : strBytes s ≤ 4 * s.data.length := by
  unfold strBytes
  induction s.data with
  | nil => simp
  | cons c t ih =>
    simp only [List.map_cons, List.sum_cons, List.length_cons]
    have := charSize_le_four c
    omega

/-- A string of 36 UTF-8 bytes cannot be (case-insensitively) the
two-character literal `"me"`. -/
theorem uuid_not_me (s : String) (h : is_uuid s = true) :
    eqIgnoreAsciiCase s "me" = false := by
  by_contra hme
  have hme2 : eqIgnoreAsciiCase s "me" = true := by
    cases heq : eqIgnoreAsciiCase s "me"
    · exact absurd heq hme
    · rfl
  have hlist : s.data.map asciiLower = "me".data.map asciiLower := by
    simpa [eqIgnoreAsciiCase] using hme2
  have hlen : s.data.length = 2 := by
    have := congrArg List.length hlist
    simpa using this
  have h36 : strBytes s = 36 := by
    have hh := h
    simp [is_uuid] at hh
    exact hh.1
  have := strBytes_le s
  omega

/-- Inputs already matching the canonical-identifier shape short-circuit
all four resolvers: the input is returned unresolved, with no network
request, no cache read and no cache write. -/
theorem uuid_shortcircuit (s : String) (h : is_uuid s = true)
    (env : ResolveEnv) (no_cache : Bool) (viewer : Except String Json)
    (respond : Bool → Option String → Except String Json)
    (include_archived : Bool) (fuel : Nat) :
    resolve_team_id env no_cache s = (.ok s, Trace.zero)
    ∧ resolve_user_id viewer env no_cache s = (.ok s, Trace.zero)
    ∧ resolve_label_id env no_cache s = (.ok s, Trace.zero)
    ∧ resolve_issue_id respond s include_archived fuel = (some (.ok s), 0) := by
  refine ⟨?_, ?_, ?_, ?_⟩
  · simp [resolve_team_id, h]
  · simp [resolve_user_id, h, uuid_not_me s h]
  · simp [resolve_label_id, h]
  · simp [resolve_issue_id, h]

/-- C7: for every input already in canonical shape (36 bytes, 4 hyphens),
each resolver — team, user, label, issue — returns the input unchanged
with zero network calls, zero cache reads and zero cache writes, for
every environment. -/
theorem c7_shape_shortcircuit (s : String) (h : is_uuid s = true)
    (env : ResolveEnv) (no_cache : Bool) (viewer : Except String Json)
    (respond : Bool → Option String → Except String Json)
    (include_archived : Bool) (fuel : Nat) :
    resolve_team_id env no_cache s = (.ok s, Trace.zero)
    ∧ resolve_user_id viewer env no_cache s = (.ok s, Trace.zero)
    ∧ resolve_label_id env no_cache s = (.ok s, Trace.zero)
    ∧ resolve_issue_id respond s include_archived fuel = (some (.ok s), 0) :=
  uuid_shortcircuit s h env no_cache viewer respond include_archived fuel

/-- C7 witness: a well-formed UUID passes through all four resolvers
untouched in a concrete environment. -/
theorem c7_shape_shortcircuit_witness :
    resolve_team_id sampleResolveEnv false "550e8400-e29b-41d4-a716-446655440000"
      = (.ok "550e8400-e29b-41d4-a716-446655440000", Trace.zero)
    ∧ resolve_user_id (.ok .null) sampleResolveEnv false
        "550e8400-e29b-41d4-a716-446655440000"
      = (.ok "550e8400-e29b-41d4-a716-446655440000", Trace.zero)
    ∧ resolve_label_id sampleResolveEnv false "550e8400-e29b-41d4-a716-446655440000"
      = (.ok "550e8400-e29b-41d4-a716-446655440000", Trace.zero)
    ∧ resolve_issue_id doneRespond "550e8400-e29b-41d4-a716-446655440000" false 5
      = (some (.ok "550e8400-e29b-41d4-a716-446655440000"), 0) :=
  c7_shape_shortcircuit "550e8400-e29b-41d4-a716-446655440000" (by decide)
    sampleResolveEnv false (.ok .null) doneRespond false 5

/-- C9 (implicit): `is_uuid` checks only the byte length and the hyphen
count, not the hyphen positions or the remaining characters — any
36-byte string with exactly 4 hyphens anywhere passes, and consequently
each resolver passes such an input through unresolved without contacting
the server, even if it is not a well-formed service identifier. -/
theorem c9_shape_ignores_positions (s : String) (hlen : strBytes s = 36)
    (hcount : s.data.count '-' = 4)
    (env : ResolveEnv) (no_cache : Bool) (viewer : Except String Json)
    (respond : Bool → Option String → Except String Json)
    (include_archived : Bool) (fuel : Nat) :
    is_uuid s = true
    ∧ resolve_team_id env no_cache s = (.ok s, Trace.zero)
    ∧ resolve_user_id viewer env no_cache s = (.ok s, Trace.zero)
    ∧ resolve_label_id env no_cache s = (.ok s, Trace.zero)
    ∧ resolve_issue_id respond s include_archived fuel = (some (.ok s), 0) := by
  have h : is_uuid s = true := by simp [is_uuid, hlen, hcount]
  exact ⟨h, uuid_shortcircuit s h env no_cache viewer respond include_archived fuel⟩

/-- C9 witness: 32 letters followed by 4 trailing hyphens — nothing like
the service's hyphen layout — still short-circuits every resolver. -/
theorem c9_shape_ignores_positions_witness :
    is_uuid "aaaaaaaaaaaaaaaaaaaaaaaaaaaaaaaa----" = true
    ∧ resolve_team_id sampleResolveEnv false "aaaaaaaaaaaaaaaaaaaaaaaaaaaaaaaa----"
      = (.ok "aaaaaaaaaaaaaaaaaaaaaaaaaaaaaaaa----", Trace.zero)
    ∧ resolve_user_id (.ok .null) sampleResolveEnv false
        "aaaaaaaaaaaaaaaaaaaaaaaaaaaaaaaa----"
      = (.ok "aaaaaaaaaaaaaaaaaaaaaaaaaaaaaaaa----", Trace.zero)
    ∧ resolve_label_id sampleResolveEnv false "aaaaaaaaaaaaaaaaaaaaaaaaaaaaaaaa----"
      = (.ok "aaaaaaaaaaaaaaaaaaaaaaaaaaaaaaaa----", Trace.zero)
    ∧ resolve_issue_id doneRespond "aaaaaaaaaaaaaaaaaaaaaaaaaaaaaaaa----" false 5
      = (some (.ok "aaaaaaaaaaaaaaaaaaaaaaaaaaaaaaaa----"), 0) :=
  c9_shape_ignores_positions "aaaaaaaaaaaaaaaaaaaaaaaaaaaaaaaa----" (by decide)
    (by decide) sampleResolveEnv false (.ok .null) doneRespond false 5

/-- Every collection `resolve_id` ever passes to `Cache::set` is the
complete paginated collection: exhaustive case analysis over the cache
probe, the filtered query and the pagination outcome. -/
theorem resolve_id_writes_complete (env2 : ResolveEnv) (nc2 : Bool) (p2 : List String)
    (f2 : List Json → String → Option String) (i2 m2 : String) :
    ∀ w ∈ (resolve_id env2 nc2 p2 f2 i2 m2).2.writes, env2.paginated = .ok w := by
  intro w hw
  rcases env2 with ⟨cached, filtered, paginated, pageFetches⟩
  rcases filtered with e | result <;>
  rcases paginated with e2 | all_items <;>
  rcases nc2 <;>
  rcases hc : cached.bind Json.asArr with _ | arr
  all_goals try (simp [resolve_id, hc] at hw; (try subst hw); (try rfl); done)
  all_goals try (rcases hfa : f2 arr i2 with _ | id0 <;>
    (simp [resolve_id, hc, hfa] at hw; (try subst hw); (try rfl); done))
  all_goals try (rcases hN : f2 ((get_nested_array result p2).getD []) i2 with _ | id1 <;>
    (simp [resolve_id, hc, hN] at hw; (try subst hw); (try rfl); done))
  all_goals try (rcases hfa : f2 arr i2 with _ | id0 <;>
    rcases hN : f2 ((get_nested_array result p2).getD []) i2 with _ | id1 <;>
    (simp [resolve_id, hc, hfa, hN] at hw; (try subst hw); (try rfl); done))
  all_goals try (rcases hN : f2 ((get_nested_array result p2).getD []) i2 with _ | id1 <;>
    rcases hA : f2 all_items i2 with _ | id2 <;>
    (simp [resolve_id, hc, hN, hA] at hw; (try subst hw); (try rfl); done))
  all_goals try (rcases hfa : f2 arr i2 with _ | id0 <;>
    rcases hN : f2 ((get_nested_array result p2).getD []) i2 with _ | id1 <;>
    rcases hA : f2 all_items i2 with _ | id2 <;>
    (simp [resolve_id, hc, hfa, hN, hA] at hw; (try subst hw); (try rfl); done))

/-- C1: in `resolve_id`, `Cache::set` is never invoked with the result of
the server-side filtered query — on every path, every written collection
is the complete paginated fetch (first conjunct, over all environments
and arguments); and a resolution that misses the cache and the filtered
query, with caching enabled, performs exactly one write of the full-fetch
collection, so the bucket afterwards contains exactly that collection
(second conjunct, using the spec-modelled overwrite semantics of
`Cache::set`). -/
theorem c1_cache_write_invariant (env : ResolveEnv) (no_cache : Bool)
    (path : List String) (finder : List Json → String → Option String)
    (input msg : String) (fr : Json) (items : List Json)
    (hcache : ∀ arr, env.cached.bind Json.asArr = some arr → finder arr input = none)
    (hfq : env.filtered = .ok fr)
    (hfmiss : finder ((get_nested_array fr path).getD []) input = none)
    (hpag : env.paginated = .ok items) :
    (∀ (env2 : ResolveEnv) (nc2 : Bool) (p2 : List String)
        (f2 : List Json → String → Option String) (i2 m2 : String),
      ∀ w ∈ (resolve_id env2 nc2 p2 f2 i2 m2).2.writes, env2.paginated = .ok w)
    ∧ (no_cache = false →
        (resolve_id env no_cache path finder input msg).2.writes = [items]
        ∧ ∀ c0, cacheAfterWrites c0 (resolve_id env no_cache path finder input msg).2.writes
            = some (.arr items)) := by
  constructor
  · exact fun env2 nc2 p2 f2 i2 m2 => resolve_id_writes_complete env2 nc2 p2 f2 i2 m2
  · intro hnc
    have hwr : (resolve_id env no_cache path finder input msg).2.writes = [items] := by
      subst hnc
      unfold resolve_id
      rcases hc : env.cached.bind Json.asArr with _ | arr
      · simp only [hc, Bool.false_eq_true, if_false, hfq, hfmiss, hpag]
        rcases finder items input with _ | id <;> rfl
      · simp only [hc, Bool.false_eq_true, if_false, hcache arr hc, hfq, hfmiss, hpag]
        rcases finder items input with _ | id <;> rfl
    exact ⟨hwr, fun c0 => by rw [hwr]; rfl⟩

/-- C1 witness: empty cache, a filtered query that returns no nodes, and a
one-team full fetch — the only write is the full collection and the
bucket afterwards holds exactly it. -/
theorem c1_cache_write_invariant_witness :
    (resolve_id sampleResolveEnv false ["data", "teams", "nodes"] find_team_id
        "eng" "Team not found").2.writes = [[sampleTeam]]
    ∧ cacheAfterWrites none
        (resolve_id sampleResolveEnv false ["data", "teams", "nodes"] find_team_id
          "eng" "Team not found").2.writes = some (.arr [sampleTeam]) :=
  have h := (c1_cache_write_invariant sampleResolveEnv false
    ["data", "teams", "nodes"] find_team_id "eng" "Team not found"
    emptyTeamsBody [sampleTeam]
    (fun arr harr => by simp [sampleResolveEnv] at harr) rfl rfl rfl).2 rfl
  ⟨h.1, h.2 none⟩

/-- The jitter draw at the midpoint of the jitter window (`draw =
jitter_range`) yields a zero jitter offset: the delay is exactly the
clamped exponential value. -/
theorem delay_zero_offset (c : RetryConfig) (a : Nat) :
    delay_for_attempt c a none (delayMsFor c a / 4) = delayMsFor c a := by
  simp only [delay_for_attempt]
  split_ifs with h <;> omega

/-- The pre-jitter delay never exceeds `max_delay_ms`. -/
theorem delayMsFor_le_max (c : RetryConfig) (a : Nat) :
    delayMsFor c a ≤ c.max_delay_ms := by
  unfold delayMsFor
  have h1 : ⌊min ((c.initial_delay_ms : ℚ) * c.exponential_base ^ a)
      ((c.max_delay_ms : ℚ))⌋ ≤ (c.max_delay_ms : ℤ) := by
    calc ⌊min ((c.initial_delay_ms : ℚ) * c.exponential_base ^ a) ((c.max_delay_ms : ℚ))⌋
        ≤ ⌊((c.max_delay_ms : ℚ))⌋ := Int.floor_le_floor (min_le_right _ _)
      _ = (c.max_delay_ms : ℤ) := Int.floor_natCast _
  exact Int.toNat_le.mpr h1

/-- With a natural multiplier and below the clamp, the pre-jitter delay is
the exact integer `initial_delay_ms * base ^ attempt`. -/
theorem delayMsFor_exact (c : RetryConfig) (a b : Nat)
    (hb : c.exponential_base = (b : ℚ))
    (hle : (c.initial_delay_ms : ℚ) * (b : ℚ) ^ a ≤ (c.max_delay_ms : ℚ)) :
    delayMsFor c a = c.initial_delay_ms * b ^ a := by
  unfold delayMsFor
  rw [hb, min_eq_left hle]
  have hcast : ((c.initial_delay_ms : ℚ)) * (b : ℚ) ^ a
      = ((c.initial_delay_ms * b ^ a : ℕ) : ℚ) := by push_cast; ring
  rw [hcast, Int.floor_natCast]
  exact Int.toNat_natCast _

/-- Once the exponential value reaches `max_delay_ms`, the pre-jitter
delay is the clamp value itself. -/
theorem delayMsFor_clamped (c : RetryConfig) (a : Nat)
    (hge : (c.max_delay_ms : ℚ) ≤ (c.initial_delay_ms : ℚ) * c.exponential_base ^ a) :
    delayMsFor c a = c.max_delay_ms := by
  unfold delayMsFor
  rw [min_eq_right hge, Int.floor_natCast]
  exact Int.toNat_natCast _

/-- C5 counterexample: on `c5Config` (initial 2 ms, max 2 ms, multiplier
2) the clamp is active from attempt 0, the jitter window is empty
(`jitter_range = 0`, so every jitter seed produces these very values), and
`delay_for(1) = 2 < 3 = delay_for(0) * multiplier * 0.75`: the claimed
monotonicity bound fails on the code. -/
theorem c5_backoff_counterexample :
    ¬ ((delay_for_attempt c5Config 1 none 0 : ℚ)
        ≥ (delay_for_attempt c5Config 0 none 0 : ℚ)
          * c5Config.exponential_base * (3 / 4)) := by
  have hd0 : delayMsFor c5Config 0 = 2 :=
    delayMsFor_clamped c5Config 0 (by norm_num [c5Config])
  have hd1 : delayMsFor c5Config 1 = 2 :=
    delayMsFor_clamped c5Config 1 (by norm_num [c5Config])
  have h0 : delay_for_attempt c5Config 0 none 0 = 2 := by
    have h := delay_zero_offset c5Config 0
    rw [hd0] at h
    simpa using h
  have h1 : delay_for_attempt c5Config 1 none 0 = 2 := by
    have h := delay_zero_offset c5Config 1
    rw [hd1] at h
    simpa using h
  have h2 : c5Config.exponential_base = 2 := rfl
  rw [h0, h1, h2]
  norm_num

/-- C5 as amended: for a natural multiplier ≥ 1, no server hint, and a
zero jitter offset (the drawn value sits at the midpoint of the jitter
window, the idealisation of a fixed jitter seed), monotonicity
`delay_for(attempt+1) ≥ delay_for(attempt) * multiplier * 0.75` holds on
attempts where the exponential value stays within `max_delay` (the clamp
not yet active — the counterexample shows it fails otherwise); the upper
bound `delay_for(attempt) ≤ max_delay * 1.25` holds unconditionally — for
every config, every attempt (clamp active or not) and every in-range
jitter draw (second conjunct, quantified independently of this theorem's
hypotheses). -/
theorem c5_backoff_amended (c : RetryConfig) (a b : Nat)
    (hb : c.exponential_base = (b : ℚ)) (hb1 : 1 ≤ b)
    (hclamp : (c.initial_delay_ms : ℚ) * (b : ℚ) ^ (a + 1) ≤ (c.max_delay_ms : ℚ)) :
    ((delay_for_attempt c (a + 1) none (delayMsFor c (a + 1) / 4) : ℚ)
      ≥ (delay_for_attempt c a none (delayMsFor c a / 4) : ℚ)
        * c.exponential_base * (3 / 4))
    ∧ (∀ (c2 : RetryConfig) (a2 draw : Nat), draw ≤ 2 * (delayMsFor c2 a2 / 4) →
        (delay_for_attempt c2 a2 none draw : ℚ) ≤ (c2.max_delay_ms : ℚ) * (5 / 4)) := by
  constructor
  · rw [delay_zero_offset, delay_zero_offset, hb]
    have hb1q : (1 : ℚ) ≤ (b : ℚ) := by exact_mod_cast hb1
    have hle_a : (c.initial_delay_ms : ℚ) * (b : ℚ) ^ a ≤ (c.max_delay_ms : ℚ) := by
      refine le_trans ?_ hclamp
      have hpow : (b : ℚ) ^ a ≤ (b : ℚ) ^ (a + 1) :=
        pow_le_pow_right₀ hb1q (Nat.le_succ a)
      exact mul_le_mul_of_nonneg_left hpow (Nat.cast_nonneg _)
    rw [delayMsFor_exact c a b hb hle_a, delayMsFor_exact c (a + 1) b hb hclamp]
    push_cast
    have hps : (b : ℚ) ^ (a + 1) = (b : ℚ) ^ a * (b : ℚ) := pow_succ _ _
    rw [hps]
    have hx : (0 : ℚ) ≤ (c.initial_delay_ms : ℚ) * (b : ℚ) ^ a * (b : ℚ) := by positivity
    nlinarith [hx]
  · intro c2 a2 draw hdraw
    have hN : delay_for_attempt c2 a2 none draw ≤ delayMsFor c2 a2 + delayMsFor c2 a2 / 4 := by
      simp only [delay_for_attempt]
      split_ifs with h <;> omega
    have hmax := delayMsFor_le_max c2 a2
    have h1 : (delay_for_attempt c2 a2 none draw : ℚ)
        ≤ (delayMsFor c2 a2 : ℚ) + ((delayMsFor c2 a2 / 4 : ℕ) : ℚ) := by
      exact_mod_cast hN
    have hq : ((delayMsFor c2 a2 / 4 : ℕ) : ℚ) ≤ (delayMsFor c2 a2 : ℚ) / 4 :=
      Nat.cast_div_le
    have h2 : (delayMsFor c2 a2 : ℚ) ≤ (c2.max_delay_ms : ℚ) := by exact_mod_cast hmax
    linarith

/-- C5 witness: monotonicity at zero jitter offset on the default config
(1000 ms initial, 30000 ms max, multiplier 2) at attempt 0, and the
1.25·max upper bound instantiated on `c5Config` at the clamp-active
attempt 1 — the regime the counterexample concerns. -/
theorem c5_backoff_amended_witness :
    ((delay_for_attempt RetryConfig.default 1 none
        (delayMsFor RetryConfig.default 1 / 4) : ℚ)
      ≥ (delay_for_attempt RetryConfig.default 0 none
          (delayMsFor RetryConfig.default 0 / 4) : ℚ)
        * RetryConfig.default.exponential_base * (3 / 4))
    ∧ (delay_for_attempt c5Config 1 none 0 : ℚ)
        ≤ (c5Config.max_delay_ms : ℚ) * (5 / 4) :=
  have h := c5_backoff_amended RetryConfig.default 0 2
    (by norm_num [RetryConfig.default])
    (by norm_num)
    (by norm_num [RetryConfig.default])
  ⟨h.1, h.2 c5Config 1 0 (Nat.zero_le _)⟩

/-- Against the stubborn server, the inner cursor loop consumes all its
fuel without producing a result: each iteration finds nothing, sees
has-next `true` and continues with the unchanged cursor `"c1"`. -/
theorem issueLoop_stubborn (fuel : Nat) :
    ∀ after, (issueLoop stubbornRespond "ENG-1" true fuel after).1 = none := by
  induction fuel with
  | zero => intro after; rfl
  | succ k ih =>
    intro after
    simp only [issueLoop, stubbornRespond]
    simp [stubbornPage, Json.idx, Json.getKey, Json.asArr, Json.asBool, Json.asStr,
      issueFind]
    exact ih (some "c1")

/-- C8 counterexample: a server that keeps answering has-next `true` with
a cursor equal to the previous cursor makes the cursor walk inside
`resolve_issue_id` loop forever — no amount of fuel produces a result, so
the claimed defensive termination does not hold on the code. -/
theorem c8_pagination_counterexample : stubbornWalkDiverges := by
  intro fuel
  have h1 : is_uuid "ENG-1" = false := by decide
  have h2 : is_issue_identifier "ENG-1" = true := by decide
  rcases hl : issueLoop stubbornRespond "ENG-1" true fuel none with ⟨o, n⟩
  have ho : o = none := by
    have h := issueLoop_stubborn fuel none
    rw [hl] at h
    exact h
  subst ho
  simp [resolve_issue_id, h1, h2, hl]

/-- The inner cursor loop terminates when the chain of continuation
cursors the server hands out is well-founded: any measure `V` that
strictly decreases along `nextCursor` bounds the fuel the loop needs. -/
theorem issueLoop_wf (respond : Bool → Option String → Except String Json)
    (V : Option String → Nat)
    (hV : ∀ (inc : Bool) (after : Option String) (c : String),
      nextCursor (respond inc after) = some c → V (some c) < V after)
    (issue : String) (inc : Bool) :
    ∀ (fuel : Nat) (after : Option String), V after < fuel →
      (issueLoop respond issue inc fuel after).1.isSome = true := by
  intro fuel
  induction fuel with
  | zero => intro after h; omega
  | succ k ih =>
    intro after h
    simp only [issueLoop]
    rcases hr : respond inc after with e | result
    · simp
    · simp only []
      rcases hf : issueFind
          ((((result.idx "data").idx "searchIssues").idx "nodes").asArr.getD []) issue
        with _ | id
      · simp only [hf]
        by_cases hnext :
            ((((result.idx "data").idx "searchIssues").idx "pageInfo").idx
              "hasNextPage").asBool.getD false = true
        · simp only [hnext, Bool.not_true, Bool.false_eq_true, if_false]
          rcases hcur : ((((result.idx "data").idx "searchIssues").idx "pageInfo").idx
              "endCursor").asStr with _ | c
          · simp
          · have hnc : nextCursor (respond inc after) = some c := by
              rw [hr]
              simp [nextCursor, hnext, hcur]
            have hlt := hV inc after c hnc
            simp only []
            exact ih (some c) (by omega)
        · simp [hnext]
      · simp [hf]

/-- C8 as amended: the cursor walk inside `resolve_issue_id` terminates
exactly when the server's cursor chain is well-founded — given any
measure on cursors that strictly decreases at every continuation
(e.g. when every chain eventually reports has-next `false` or a null
cursor), fuel exceeding the measure of the start state suffices for the
walk to produce a result; the counterexample shows that without such a
measure (a repeated unchanged cursor with has-next `true`) the walk does
not terminate. -/
theorem c8_pagination_amended (respond : Bool → Option String → Except String Json)
    (V : Option String → Nat)
    (hV : ∀ (inc : Bool) (after : Option String) (c : String),
      nextCursor (respond inc after) = some c → V (some c) < V after)
    (issue : String) (include_archived : Bool) (fuel : Nat)
    (hfuel : V none < fuel) :
    (resolve_issue_id respond issue include_archived fuel).1.isSome = true := by
  have hpass : ∀ inc : Bool,
      (issueLoop respond issue inc fuel none).1.isSome = true := fun inc =>
    issueLoop_wf respond V hV issue inc fuel none hfuel
  unfold resolve_issue_id
  split_ifs with hu hv hia
  · simp
  · simp
  all_goals
    rcases h1 : issueLoop respond issue include_archived fuel none with ⟨o1, n1⟩
  all_goals
    have ho1 : o1.isSome = true := by
      have h := hpass include_archived
      rw [h1] at h
      exact h
  all_goals rcases o1 with _ | r1
  · simp at ho1
  · rcases r1 with e | oid
    · simp
    · rcases oid with _ | id <;> simp
  · simp at ho1
  · rcases r1 with e | oid
    · simp
    · rcases oid with _ | id
      · rcases h2 : issueLoop respond issue true fuel none with ⟨o2, n2⟩
        have ho2 : o2.isSome = true := by
          have h := hpass true
          rw [h2] at h
          exact h
        rcases o2 with _ | r2
        · simp at ho2
        · rcases r2 with e2 | oid2
          · simp
          · rcases oid2 with _ | id2 <;> simp
      · simp

/-- C8 witness: a server whose every page reports has-next `false`
(measure constantly 0) lets the walk finish within fuel 1. -/
theorem c8_pagination_amended_witness :
    (resolve_issue_id doneRespond "ENG-1" false 1).1.isSome = true :=
  c8_pagination_amended doneRespond (fun _ => 0)
    (by
      intro inc after c h
      simp [nextCursor, doneRespond, donePage, Json.idx, Json.getKey, Json.asBool] at h)
    "ENG-1" false 1 (by norm_num)

end LinearCli
